import Mathlib

/-!
Shallow embedding of `consul/consul_stub.go` from marathon-consul: an
in-memory fake of a Consul service registry used in tests.  Go maps keyed
by `service.ID` are embedded as association lists `List (String × _)`;
the Go `map[K]bool` failure-injection sets become `List String` used only
through membership; `apps.TaskID` and `service.ID` are strings.  Errors
returned by the Go methods become `Except String`; mutating methods return
the updated `Stub` alongside the result, and a method that returns with an
error leaves the receiver exactly as it was, as in the source.  The Go
panic in `RegisterOnlyFirstRegistrationIntent` (indexing an empty slice)
is embedded as `Option.none`.
-/

namespace ConsulStub

/-- The record `consulapi.AgentServiceRegistration`, restricted to the fields the stub
reads or writes (`Checks` is written as the empty list and never read, so it
is omitted). -/
structure AgentServiceRegistration where
  id : String
  name : String
  port : Int
  address : String
  tags : List String
deriving Repr, DecidableEq

/-- The caller-facing `service.Service` shape as the stub builds it: id, name, tags, agent address. -/
structure Service where
  id : String
  name : String
  tags : List String
  agentAddress : String
deriving Repr, DecidableEq

/-- Modelled from the spec: the `contains` helper of the consul package is not
in the extracted sources; the spec fixes its semantics to exact string
membership in the tag slice ("tag-matching semantics beyond exact string
membership" are a non-goal). -/
def contains (slice : List String) (search : String) : Bool :=
  slice.contains search

/-- Modelled from the spec: `service.Service.TaskID()` is not in the extracted
sources.  Per the spec, an entry carries a link tag of the form
`marathon-task:<taskID>`; `TaskID` extracts the task identifier from the first
such tag and fails (returning the zero-value identifier together with an
error, as a Go `(apps.TaskID, error)` pair does) when no tag parses. -/
def serviceTaskID (s : Service) : String × Option String :=
  match s.tags.find? (fun t => t.startsWith "marathon-task:") with
  | some t => (t.drop "marathon-task:".length, none)
  | none => ("", some "no marathon-task tag found")

/-- The state of `consul.Stub`: the services table (a Go map from service id to
registration, embedded as an association list) plus the four failure-injection
sets and the configured registry tag (`consul.config.Tag`).  The
`ConsulNameSeparator` configuration is consumed only by the external intent
extractor, which is a parameter of the operations here. -/
structure Stub where
  services : List (String × AgentServiceRegistration)
  failGetServicesForNames : List String
  failRegisterForIDs : List String
  failDeregisterByTaskForIDs : List String
  failDeregisterForIDs : List String
  tag : String
deriving Repr, DecidableEq

/-- Constructor `NewConsulStubWithTag`: empty table, empty failure sets, given tag. -/
def NewConsulStubWithTag (tag : String) : Stub :=
  { services := []
    failGetServicesForNames := []
    failRegisterForIDs := []
    failDeregisterByTaskForIDs := []
    failDeregisterForIDs := []
    tag := tag }

/-- Constructor `NewConsulStub`: defaults the tag to `"marathon"`. -/
def NewConsulStub : Stub := NewConsulStubWithTag "marathon"

/-- Go map assignment `m[k] = v`: any pair already stored under `k` is
replaced. -/
def mapInsert (m : List (String × AgentServiceRegistration)) (k : String)
    (v : AgentServiceRegistration) : List (String × AgentServiceRegistration) :=
  (k, v) :: m.filter (fun p => p.1 ≠ k)

/-- Go map deletion `delete(m, k)`. -/
def mapErase (m : List (String × AgentServiceRegistration)) (k : String) :
    List (String × AgentServiceRegistration) :=
  m.filter (fun p => p.1 ≠ k)

/-- Go map read `m[k]`. -/
def mapLookup (m : List (String × AgentServiceRegistration)) (k : String) :
    Option AgentServiceRegistration :=
  (m.find? (fun p => p.1 = k)).map Prod.snd

/-- The translation of a stored registration to the caller-facing
`service.Service` shape performed inside `GetAllServices` and `GetServices`. -/
def toService (s : AgentServiceRegistration) : Service :=
  { id := s.id, name := s.name, tags := s.tags, agentAddress := s.address }

/-- Method `Stub.GetAllServices`: every stored entry, translated; never an error. -/
def GetAllServices (c : Stub) : Except String (List Service) :=
  .ok ((c.services.map Prod.snd).map toService)

/-- Setter `Stub.FailGetServicesForName`. -/
def FailGetServicesForName (failOnName : String) (c : Stub) : Stub :=
  { c with failGetServicesForNames := failOnName :: c.failGetServicesForNames }

/-- Setter `Stub.FailRegisterForID`. -/
def FailRegisterForID (taskID : String) (c : Stub) : Stub :=
  { c with failRegisterForIDs := taskID :: c.failRegisterForIDs }

/-- Setter `Stub.FailDeregisterByTaskForID`. -/
def FailDeregisterByTaskForID (taskID : String) (c : Stub) : Stub :=
  { c with failDeregisterByTaskForIDs := taskID :: c.failDeregisterByTaskForIDs }

/-- Setter `Stub.FailDeregisterForID`. -/
def FailDeregisterForID (serviceID : String) (c : Stub) : Stub :=
  { c with failDeregisterForIDs := serviceID :: c.failDeregisterForIDs }

/-- Method `Stub.GetServices`: injected failure when the name is flagged, otherwise
the stored entries with this name whose tags contain the configured registry
tag, translated.  The method only reads the receiver, so it is embedded as a
pure function of the state. -/
def GetServices (c : Stub) (name : String) : Except String (List Service) :=
  if name ∈ c.failGetServicesForNames then
    .error ("Consul stub programmed to fail when getting services for name " ++ name)
  else
    .ok (((c.services.map Prod.snd).filter
      (fun s => s.name = name && contains s.tags c.tag)).map toService)

/-- Method `Stub.Register`.  The call
`c.consul.marathonTaskToConsulServices(task, app)` goes to the intent
extractor, which the spec places outside this core; its result for the given
task and app is therefore a parameter `extract`.  Of the task itself only
`task.ID` is read. -/
def Register (extract : Except String (List AgentServiceRegistration))
    (taskID : String) (c : Stub) : Except String Unit × Stub :=
  if taskID ∈ c.failRegisterForIDs then
    (.error ("Consul stub programmed to fail when registering task of id " ++ taskID), c)
  else
    match extract with
    | .error err => (.error err, c)
    | .ok serviceRegistrations =>
      let newServices := serviceRegistrations.foldl (fun m r => mapInsert m r.id r) c.services
      (.ok (), { c with services := newServices })

/-- A registration intent as consumed by `RegisterWithoutMarathonTaskTag`:
the fields of `app.RegistrationIntents` it reads. -/
structure RegistrationIntent where
  name : String
  port : Int
  tags : List String
deriving Repr, DecidableEq

/-- Method `Stub.RegisterWithoutMarathonTaskTag`: one entry per intent, keyed by the
task's own identifier, with the intent's tags as given (no link tag added).
`intents` stands for `app.RegistrationIntents(task, separator)`, an external
collaborator; of the task it reads `ID` and `Host`. -/
def RegisterWithoutMarathonTaskTag (intents : List RegistrationIntent)
    (taskID host : String) (c : Stub) : Stub :=
  let step := fun m (intent : RegistrationIntent) =>
    mapInsert m taskID
      { id := taskID, name := intent.name, port := intent.port,
        address := host, tags := intent.tags }
  { c with services := intents.foldl step c.services }

/-- Method `Stub.RegisterOnlyFirstRegistrationIntent`: discards the extraction error
and stores `serviceRegistrations[0]`.  When extraction fails the Go slice is
nil, and indexing it — as when extraction yields zero intents — panics with an
index-out-of-range; the panic is embedded as `none`. -/
def RegisterOnlyFirstRegistrationIntent
    (extract : Except String (List AgentServiceRegistration)) (c : Stub) :
    Option Stub :=
  let serviceRegistrations := match extract with
    | .ok rs => rs
    | .error _ => []
  match serviceRegistrations with
  | [] => none
  | r :: _ => some { c with services := mapInsert c.services r.id r }

/-- Helper `Stub.servicesMatchingTask`: the stored registrations whose id equals the
task identifier or whose tags contain `marathon-task:<taskID>`. -/
def servicesMatchingTask (c : Stub) (taskID : String) :
    List AgentServiceRegistration :=
  (c.services.map Prod.snd).filter
    (fun s => s.id = taskID || contains s.tags ("marathon-task:" ++ taskID))

/-- Method `Stub.DeregisterByTask`: injected failure when flagged, otherwise deletes
the key of every matching registration (the matching slice is computed before
any deletion, as in the source). -/
def DeregisterByTask (taskID : String) (c : Stub) : Except String Unit × Stub :=
  if taskID ∈ c.failDeregisterByTaskForIDs then
    (.error ("Consul stub programmed to fail when deregistering task of id " ++ taskID), c)
  else
    let newServices := (servicesMatchingTask c taskID).foldl (fun m x => mapErase m x.id) c.services
    (.ok (), { c with services := newServices })

/-- Method `Stub.Deregister`: injected failure when the service id is flagged,
otherwise deletes the id from the table (absent ids delete to a no-op). -/
def Deregister (toDeregister : Service) (c : Stub) : Except String Unit × Stub :=
  if toDeregister.id ∈ c.failDeregisterForIDs then
    (.error ("Consul stub programmed to fail when deregistering service of id " ++ toDeregister.id), c)
  else
    (.ok (), { c with services := mapErase c.services toDeregister.id })

/-- Method `Stub.RegisteredTaskIDs`: calls `GetServices` discarding the error (on
error the services slice is nil) and appends the task identifier extracted
from each returned entry — unconditionally, the extraction error being
discarded by `taskID, _ := s.TaskID()`. -/
def RegisteredTaskIDs (c : Stub) (serviceName : String) : List String :=
  match GetServices c serviceName with
  | .error _ => []
  | .ok services => services.map (fun s => (serviceTaskID s).1)

instance {ε α : Type} [DecidableEq ε] [DecidableEq α] : DecidableEq (Except ε α) := fun x y =>
  match x, y with
  | .ok a, .ok b =>
    if h : a = b then .isTrue (congrArg Except.ok h)
    else .isFalse (fun hc => h (Except.ok.inj hc))
  | .error a, .error b =>
    if h : a = b then .isTrue (congrArg Except.error h)
    else .isFalse (fun hc => h (Except.error.inj hc))
  | .ok _, .error _ => .isFalse (fun hc => Except.noConfusion hc)
  | .error _, .ok _ => .isFalse (fun hc => Except.noConfusion hc)

/-- One invocation of a public operation of the stub, with the data the
operation consumes (for `Register`-like operations this includes the result
the external intent extractor would produce for the given task and app). -/
inductive Op where
  | getAllServices
  | getServices (name : String)
  | register (extract : Except String (List AgentServiceRegistration)) (taskID : String)
  | registerWithoutMarathonTaskTag (intents : List RegistrationIntent) (taskID host : String)
  | registerOnlyFirstRegistrationIntent (extract : Except String (List AgentServiceRegistration))
  | deregisterByTask (taskID : String)
  | deregister (toDeregister : Service)
  | failGetServicesForName (name : String)
  | failRegisterForID (taskID : String)
  | failDeregisterByTaskForID (taskID : String)
  | failDeregisterForID (serviceID : String)
deriving Repr, DecidableEq

/-- The state transition of one operation; `none` when the operation panics
(`RegisterOnlyFirstRegistrationIntent` on failed or empty extraction). -/
def step (op : Op) (c : Stub) : Option Stub :=
  match op with
  | .getAllServices => some c
  | .getServices _ => some c
  | .register extract taskID => some (Register extract taskID c).2
  | .registerWithoutMarathonTaskTag intents taskID host =>
    some (RegisterWithoutMarathonTaskTag intents taskID host c)
  | .registerOnlyFirstRegistrationIntent extract =>
    RegisterOnlyFirstRegistrationIntent extract c
  | .deregisterByTask taskID => some (DeregisterByTask taskID c).2
  | .deregister svc => some (Deregister svc c).2
  | .failGetServicesForName name => some (FailGetServicesForName name c)
  | .failRegisterForID taskID => some (FailRegisterForID taskID c)
  | .failDeregisterByTaskForID taskID => some (FailDeregisterByTaskForID taskID c)
  | .failDeregisterForID sid => some (FailDeregisterForID sid c)

/-- Running a sequence of operations from a state. -/
def run (ops : List Op) (c : Stub) : Option Stub :=
  match ops with
  | [] => some c
  | op :: rest =>
    match step op c with
    | none => none
    | some c2 => run rest c2

/-- A state holding one entry for service `web` owned by the default tag but
carrying no `marathon-task:` link tag. -/
def stubNoLinkTag : Stub :=
  { NewConsulStub with services :=
      [("x", { id := "x", name := "web", port := 80, address := "host1",
               tags := ["marathon"] })] }

/-- A state with every failure-injection set populated and an empty table. -/
def stubAllFailures : Stub :=
  { NewConsulStub with
      failGetServicesForNames := ["web"]
      failRegisterForIDs := ["t1"]
      failDeregisterByTaskForIDs := ["t2"]
      failDeregisterForIDs := ["s1"] }

/-- A caller-facing service record with id `s1`. -/
def serviceS1 : Service :=
  { id := "s1", name := "web", tags := [], agentAddress := "host1" }

/-- A caller-facing service record whose id `zz` appears nowhere. -/
def serviceZZ : Service :=
  { id := "zz", name := "web", tags := [], agentAddress := "host1" }

/-- A state with one entry owned by the default tag and one entry registered
under a different tag, both named `web`. -/
def stubTwoTags : Stub :=
  { NewConsulStub with services :=
      [("t1", { id := "t1", name := "web", port := 80, address := "host1",
                tags := ["marathon", "marathon-task:t1"] }),
       ("t2", { id := "t2", name := "web", port := 81, address := "host2",
                tags := ["other", "marathon-task:t2"] })] }

/-- A state with an entry whose id equals task `t1`, an entry linked to `t1`
only through its `marathon-task:t1` tag, and an unrelated entry. -/
def stubTaskLinks : Stub :=
  { NewConsulStub with services :=
      [("t1", { id := "t1", name := "web", port := 80, address := "host1",
                tags := ["marathon", "marathon-task:t1"] }),
       ("s2", { id := "s2", name := "web", port := 81, address := "host1",
                tags := ["marathon", "marathon-task:t1"] }),
       ("s3", { id := "s3", name := "db", port := 82, address := "host2",
                tags := ["marathon", "marathon-task:t3"] })] }

/-- A state whose only populated failure set is the get-services one. -/
def stubFailGetOnly : Stub := FailGetServicesForName "web" NewConsulStub

/-- A state whose only populated failure set is the register one. -/
def stubFailRegisterOnly : Stub := FailRegisterForID "t1" NewConsulStub

/-- A state whose only populated failure set is the deregister-by-task one. -/
def stubFailDeregByTaskOnly : Stub := FailDeregisterByTaskForID "t2" NewConsulStub

/-- A state whose only populated failure set is the deregister one. -/
def stubFailDeregOnly : Stub := FailDeregisterForID "s1" NewConsulStub

/-- The state reached from the empty stub by flagging `t1` for register
failure and then running two further operations. -/
def stubAfterOps : Stub :=
  { NewConsulStub with failRegisterForIDs := ["t1"], failDeregisterForIDs := ["s9"] }

/-- Two registrations as the intent extractor would produce for one task of id
`t1` exposing two ports. -/
def regsT1 : List AgentServiceRegistration :=
  [{ id := "t1", name := "web", port := 80, address := "host1",
     tags := ["marathon", "marathon-task:t1"] },
   { id := "t1-secured", name := "web-secured", port := 443, address := "host1",
     tags := ["marathon", "marathon-task:t1"] }]

/-! Helper lemmas about the association-list embedding of Go maps. -/

theorem find?_key_filter_ne (m : List (String × AgentServiceRegistration)) (k k' : String)
    (h : k' ≠ k) :
    (m.filter (fun p => p.1 ≠ k)).find? (fun p => p.1 = k') =
      m.find? (fun p => p.1 = k') := by
  rw [List.find?_filter]
  congr 1
  funext a
  by_cases hb : a.1 = k'
  · have hk : ¬(a.1 = k) := by rw [hb]; exact h
    simp [hb, hk, h]
  · simp [hb]

theorem mapLookup_mapInsert (m : List (String × AgentServiceRegistration))
    (k : String) (v : AgentServiceRegistration) (k' : String) :
    mapLookup (mapInsert m k v) k' = if k' = k then some v else mapLookup m k' := by
  unfold mapLookup mapInsert
  by_cases h : k' = k
  · subst h
    simp
  · have hk : ¬(k = k') := fun hc => h hc.symm
    rw [List.find?_cons_of_neg _ (by simp [hk]), find?_key_filter_ne m k k' h, if_neg h]

theorem mem_foldl_mapErase (xs : List AgentServiceRegistration)
    (m : List (String × AgentServiceRegistration))
    (p : String × AgentServiceRegistration) :
    p ∈ xs.foldl (fun m x => mapErase m x.id) m ↔ p ∈ m ∧ ∀ x ∈ xs, p.1 ≠ x.id := by
  induction xs generalizing m with
  | nil => simp
  | cons x xs ih =>
    rw [List.foldl_cons, ih]
    unfold mapErase
    simp [List.mem_filter]
    tauto

theorem eq_of_mem_of_nodup_keys {m : List (String × AgentServiceRegistration)}
    (hnd : (m.map Prod.fst).Nodup) {p q : String × AgentServiceRegistration}
    (hp : p ∈ m) (hq : q ∈ m) (h : p.1 = q.1) : p = q := by
  induction m with
  | nil => cases hp
  | cons a m ih =>
    rw [List.map_cons, List.nodup_cons] at hnd
    rcases List.mem_cons.mp hp with hp1 | hp2 <;> rcases List.mem_cons.mp hq with hq1 | hq2
    · rw [hp1, hq1]
    · exact absurd (List.mem_map.mpr ⟨q, hq2, ((congrArg Prod.fst hp1).symm.trans h).symm⟩) hnd.1
    · exact absurd (List.mem_map.mpr ⟨p, hp2, h.trans (congrArg Prod.fst hq1)⟩) hnd.1
    · exact ih hnd.2 hp2 hq2

/-- C9: `GetAllServices` never fails and returns every entry currently in the
table translated to the caller-facing shape, with no filtering by the
configured registry tag. -/
theorem c9_getAllServices_total (c : Stub) :
    ∃ l, GetAllServices c = .ok l ∧
      ∀ svc, svc ∈ l ↔ ∃ p, p ∈ c.services ∧ svc = toService p.2 := by
  refine ⟨_, rfl, fun svc => ?_⟩
  simp only [GetAllServices, List.mem_map]
  constructor
  · rintro ⟨s, ⟨p, hp, rfl⟩, rfl⟩
    exact ⟨p, hp, rfl⟩
  · rintro ⟨p, hp, rfl⟩
    exact ⟨p.2, ⟨p, hp, rfl⟩, rfl⟩

/-- C3: for each operation separately, when its key is in that operation's
failure-injection set the operation returns an error naming the key, and the
whole registry state — the services table and all four failure sets — is
exactly the state before the call.  Each conjunct carries only its own
operation's membership hypothesis. -/
theorem c3_injected_failure_no_side_effect (c : Stub) (name taskID taskID2 : String)
    (svc : Service) (extract : Except String (List AgentServiceRegistration)) :
    (name ∈ c.failGetServicesForNames →
      GetServices c name =
        .error ("Consul stub programmed to fail when getting services for name " ++ name)) ∧
    (taskID ∈ c.failRegisterForIDs →
      Register extract taskID c =
        (.error ("Consul stub programmed to fail when registering task of id " ++ taskID), c)) ∧
    (taskID2 ∈ c.failDeregisterByTaskForIDs →
      DeregisterByTask taskID2 c =
        (.error ("Consul stub programmed to fail when deregistering task of id " ++ taskID2), c)) ∧
    (svc.id ∈ c.failDeregisterForIDs →
      Deregister svc c =
        (.error ("Consul stub programmed to fail when deregistering service of id " ++ svc.id), c)) := by
  refine ⟨fun h => ?_, fun h => ?_, fun h => ?_, fun h => ?_⟩ <;>
    simp [GetServices, Register, DeregisterByTask, Deregister, h]

/-- Witness for C3 at four states, each with exactly one failure set
populated — `web`, `t1`, `t2` and `s1` respectively. -/
theorem c3_witness :
    GetServices stubFailGetOnly "web" =
      .error ("Consul stub programmed to fail when getting services for name " ++ "web") ∧
    Register (.ok []) "t1" stubFailRegisterOnly =
      (.error ("Consul stub programmed to fail when registering task of id " ++ "t1"), stubFailRegisterOnly) ∧
    DeregisterByTask "t2" stubFailDeregByTaskOnly =
      (.error ("Consul stub programmed to fail when deregistering task of id " ++ "t2"), stubFailDeregByTaskOnly) ∧
    Deregister serviceS1 stubFailDeregOnly =
      (.error ("Consul stub programmed to fail when deregistering service of id " ++ serviceS1.id), stubFailDeregOnly) :=
  ⟨(c3_injected_failure_no_side_effect stubFailGetOnly "web" "z" "z" serviceS1 (.ok [])).1
      (by decide),
   (c3_injected_failure_no_side_effect stubFailRegisterOnly "z" "t1" "z" serviceS1 (.ok [])).2.1
      (by decide),
   (c3_injected_failure_no_side_effect stubFailDeregByTaskOnly "z" "z" "t2" serviceS1 (.ok [])).2.2.1
      (by decide),
   (c3_injected_failure_no_side_effect stubFailDeregOnly "z" "z" "z" serviceS1 (.ok [])).2.2.2
      (by decide)⟩

/-- C8: absence is not an error — `Deregister` on an id that is neither in the
table nor in the fail-deregister set succeeds with the state unchanged, and
`DeregisterByTask` on an unflagged task with zero matching entries succeeds
with the state unchanged. -/
theorem c8_noop_safety (c : Stub) (svc : Service) (taskID : String)
    (h1 : svc.id ∉ c.failDeregisterForIDs)
    (h2 : ∀ p ∈ c.services, p.1 ≠ svc.id)
    (h3 : taskID ∉ c.failDeregisterByTaskForIDs)
    (h4 : servicesMatchingTask c taskID = []) :
    Deregister svc c = (.ok (), c) ∧ DeregisterByTask taskID c = (.ok (), c) := by
  constructor
  · unfold Deregister mapErase
    rw [if_neg h1]
    have hself : c.services.filter (fun p => p.1 ≠ svc.id) = c.services :=
      List.filter_eq_self.mpr (fun p hp => by simpa using h2 p hp)
    rw [hself]
  · unfold DeregisterByTask
    rw [if_neg h3, h4]
    rfl

/-- Witness for C8: deregistering the absent id `zz` and the unmatched task
`t9` on a one-entry state. -/
theorem c8_witness :
    Deregister serviceZZ stubNoLinkTag = (.ok (), stubNoLinkTag) ∧
    DeregisterByTask "t9" stubNoLinkTag = (.ok (), stubNoLinkTag) :=
  c8_noop_safety stubNoLinkTag serviceZZ "t9" (by decide) (by decide) (by decide) (by decide)

/-- C10: the injected-failure check precedes the no-op-success path — a
flagged `Deregister` fails even when no entry with that id is stored, and a
flagged `DeregisterByTask` fails even with zero matching entries.  Each
conjunct carries only its own operation's hypotheses. -/
theorem c10_deregister_failure_precedence (c : Stub) (svc : Service) (taskID : String) :
    (svc.id ∈ c.failDeregisterForIDs → (∀ p ∈ c.services, p.1 ≠ svc.id) →
      (Deregister svc c).1 =
        .error ("Consul stub programmed to fail when deregistering service of id " ++ svc.id)) ∧
    (taskID ∈ c.failDeregisterByTaskForIDs → servicesMatchingTask c taskID = [] →
      (DeregisterByTask taskID c).1 =
        .error ("Consul stub programmed to fail when deregistering task of id " ++ taskID)) := by
  refine ⟨fun h _ => ?_, fun h _ => ?_⟩ <;> simp [Deregister, DeregisterByTask, h]

/-- Witness for C10 at two empty-table states, each with only the relevant
failure set populated. -/
theorem c10_witness :
    (Deregister serviceS1 stubFailDeregOnly).1 =
      .error ("Consul stub programmed to fail when deregistering service of id " ++ serviceS1.id) ∧
    (DeregisterByTask "t2" stubFailDeregByTaskOnly).1 =
      .error ("Consul stub programmed to fail when deregistering task of id " ++ "t2") :=
  ⟨(c10_deregister_failure_precedence stubFailDeregOnly serviceS1 "z").1
      (by decide) (by decide),
   (c10_deregister_failure_precedence stubFailDeregByTaskOnly serviceS1 "t2").2
      (by decide) (by decide)⟩

/-- C2 counterexample: when intent extraction fails the Go code discards the
error, leaving a nil slice, and `serviceRegistrations[0]` panics with an
index-out-of-range — embedded as `none` — so the operation does not complete,
contrary to the claim that it completes without a fatal path even when
extraction fails. -/
theorem c2_counterexample :
    RegisterOnlyFirstRegistrationIntent (Except.error "extraction failed") NewConsulStub =
      none := rfl

/-- C2 amended: when extraction yields at least one registration,
`RegisterOnlyFirstRegistrationIntent` stores exactly the first one (the rest
and any error value are discarded); when extraction fails or yields zero
registrations, indexing the empty slice panics (`none`). -/
theorem c2_registerOnlyFirst_amended (c : Stub) (r : AgentServiceRegistration)
    (rs : List AgentServiceRegistration) (e : String) :
    (∃ c', RegisterOnlyFirstRegistrationIntent (.ok (r :: rs)) c = some c' ∧
      ∀ k, mapLookup c'.services k = if k = r.id then some r else mapLookup c.services k) ∧
    RegisterOnlyFirstRegistrationIntent (.ok []) c = none ∧
    RegisterOnlyFirstRegistrationIntent (.error e) c = none := by
  refine ⟨⟨_, rfl, fun k => ?_⟩, rfl, rfl⟩
  exact mapLookup_mapInsert c.services r.id r k

/-- C1 counterexample: an entry owned by the registry tag but lacking a
parseable `marathon-task:` link tag contributes the zero-value task identifier
to `RegisteredTaskIDs` — `taskID, _ := s.TaskID()` discards only the error and
the identifier is appended unconditionally — rather than being omitted. -/
theorem c1_counterexample :
    RegisteredTaskIDs stubNoLinkTag "web" = [""] ∧
    RegisteredTaskIDs stubNoLinkTag "web" ≠ ([] : List String) := by
  constructor
  · rfl
  · decide

/-- C1 amended: `RegisteredTaskIDs` returns one identifier per entry returned
by `GetServices` — the identifier parsed from the entry's tags, or the
zero-value identifier when no link tag parses (such entries are not omitted) —
and the empty list when `GetServices` returns an error. -/
theorem c1_registeredTaskIDs_amended (c : Stub) (serviceName : String) :
    (serviceName ∈ c.failGetServicesForNames → RegisteredTaskIDs c serviceName = []) ∧
    (∀ l, GetServices c serviceName = .ok l →
      RegisteredTaskIDs c serviceName = l.map (fun s => (serviceTaskID s).1)) := by
  constructor
  · intro h
    simp [RegisteredTaskIDs, GetServices, h]
  · intro l hl
    simp only [RegisteredTaskIDs, hl]

/-- Witness for C1: the flagged name `web` on the all-failures state yields
`[]`; on the one-entry state `GetServices` returns the translated entry and
`RegisteredTaskIDs` maps it to its (here zero-value) identifier. -/
theorem c1_witness :
    RegisteredTaskIDs stubAllFailures "web" = [] ∧
    RegisteredTaskIDs stubNoLinkTag "web" =
      [({ id := "x", name := "web", tags := ["marathon"], agentAddress := "host1" } : Service)].map
        (fun s => (serviceTaskID s).1) :=
  ⟨(c1_registeredTaskIDs_amended stubAllFailures "web").1 (by decide),
   (c1_registeredTaskIDs_amended stubNoLinkTag "web").2 _ rfl⟩

/-- C4: for an unflagged name, `GetServices` succeeds and returns exactly the
stored entries whose name equals the argument and whose tags contain the
configured registry tag (entries under a different tag never appear); for a
flagged name it returns an error naming the name. -/
theorem c4_getServices_scoped (c : Stub) (name : String) :
    (name ∉ c.failGetServicesForNames →
      ∃ l, GetServices c name = .ok l ∧
        ∀ svc, svc ∈ l ↔
          ∃ p, p ∈ c.services ∧ p.2.name = name ∧ c.tag ∈ p.2.tags ∧ svc = toService p.2) ∧
    (name ∈ c.failGetServicesForNames →
      GetServices c name =
        .error ("Consul stub programmed to fail when getting services for name " ++ name)) := by
  constructor
  · intro h
    have hg : GetServices c name = .ok (((c.services.map Prod.snd).filter
        (fun s => s.name = name && contains s.tags c.tag)).map toService) := by
      unfold GetServices
      rw [if_neg h]
    refine ⟨_, hg, fun svc => ?_⟩
    simp only [List.mem_map, List.mem_filter, Bool.and_eq_true, decide_eq_true_eq,
      contains, List.elem_eq_mem, List.contains_eq_any_beq]
    constructor
    · rintro ⟨s, ⟨⟨p, hp, rfl⟩, hname, htag⟩, rfl⟩
      exact ⟨p, hp, hname, by simpa using htag, rfl⟩
    · rintro ⟨p, hp, hname, htag, rfl⟩
      exact ⟨p.2, ⟨⟨p, hp, rfl⟩, hname, by simpa using htag⟩, rfl⟩
  · intro h
    unfold GetServices
    rw [if_pos h]

/-- Witness for C4: a state holding a `web` entry owned by tag `marathon` and
a `web` entry registered under tag `other`, and the all-failures state. -/
theorem c4_witness :
    (∃ l, GetServices stubTwoTags "web" = .ok l ∧
      ∀ svc, svc ∈ l ↔
        ∃ p, p ∈ stubTwoTags.services ∧ p.2.name = "web" ∧
          stubTwoTags.tag ∈ p.2.tags ∧ svc = toService p.2) ∧
    GetServices stubAllFailures "web" =
      .error ("Consul stub programmed to fail when getting services for name " ++ "web") :=
  ⟨(c4_getServices_scoped stubTwoTags "web").1 (by decide),
   (c4_getServices_scoped stubAllFailures "web").2 (by decide)⟩

/-- C5: for an unflagged task identifier, `DeregisterByTask` succeeds and
removes exactly the stored entries matching the task — by id equality with
the task identifier or by carrying the `marathon-task:<taskID>` link tag —
leaving every other entry unchanged.  The two hypotheses on the table state
the Go-map representation invariants: each entry is keyed by its own id and
keys are unique. -/
theorem c5_deregisterByTask_matches (c : Stub) (taskID : String)
    (hfail : taskID ∉ c.failDeregisterByTaskForIDs)
    (hwf : ∀ p ∈ c.services, p.1 = p.2.id)
    (hnd : (c.services.map Prod.fst).Nodup) :
    (DeregisterByTask taskID c).1 = .ok () ∧
    ∀ p, p ∈ (DeregisterByTask taskID c).2.services ↔
      p ∈ c.services ∧
        ¬(p.2.id = taskID ∨ ("marathon-task:" ++ taskID) ∈ p.2.tags) := by
  have hstep : DeregisterByTask taskID c = (.ok (), { c with services := (servicesMatchingTask c taskID).foldl (fun m x => mapErase m x.id) c.services }) := by
    unfold DeregisterByTask
    rw [if_neg hfail]
  rw [hstep]
  refine ⟨rfl, fun p => ?_⟩
  rw [mem_foldl_mapErase]
  constructor
  · rintro ⟨hp, hall⟩
    refine ⟨hp, fun hmatch => ?_⟩
    have hpM : p.2 ∈ servicesMatchingTask c taskID := by
      unfold servicesMatchingTask
      rw [List.mem_filter]
      refine ⟨List.mem_map.mpr ⟨p, hp, rfl⟩, ?_⟩
      rcases hmatch with h1 | h2
      · simp [h1]
      · simp [contains, h2]
    exact absurd (hwf p hp) (hall p.2 hpM)
  · rintro ⟨hp, hnm⟩
    refine ⟨hp, fun x hxM hpx => ?_⟩
    unfold servicesMatchingTask at hxM
    rw [List.mem_filter] at hxM
    obtain ⟨hxmem, hxpred⟩ := hxM
    obtain ⟨q, hq, hq2⟩ := List.mem_map.mp hxmem
    have hq1 : q.1 = p.1 := by rw [hwf q hq, hq2, ← hpx]
    have hqp : q = p := eq_of_mem_of_nodup_keys hnd hq hp hq1
    apply hnm
    rw [← hq2, hqp] at hxpred
    simpa [contains] using hxpred

/-- Witness for C5: task `t1` removes both the entry whose id is `t1` and the
entry `s2` linked only through its `marathon-task:t1` tag, sparing `s3`. -/
theorem c5_witness :
    (DeregisterByTask "t1" stubTaskLinks).1 = .ok () ∧
    ∀ p, p ∈ (DeregisterByTask "t1" stubTaskLinks).2.services ↔
      p ∈ stubTaskLinks.services ∧
        ¬(p.2.id = "t1" ∨ ("marathon-task:" ++ "t1") ∈ p.2.tags) :=
  c5_deregisterByTask_matches stubTaskLinks "t1" (by decide) (by decide) (by decide)

theorem mapLookup_foldl_mapInsert (rs : List AgentServiceRegistration)
    (m : List (String × AgentServiceRegistration)) (k : String) :
    mapLookup (rs.foldl (fun m r => mapInsert m r.id r) m) k =
      (rs.reverse.find? (fun r => r.id = k)).or (mapLookup m k) := by
  induction rs generalizing m with
  | nil => simp
  | cons r rs ih =>
    rw [List.foldl_cons, ih, List.reverse_cons, List.find?_append, mapLookup_mapInsert]
    cases hf : rs.reverse.find? (fun r => r.id = k) with
    | some r' => simp
    | none =>
      simp only [Option.none_or]
      by_cases hr : r.id = k
      · subst hr
        simp [List.find?_cons]
      · have hk : ¬(k = r.id) := fun h => hr h.symm
        simp [List.find?_cons, hr, hk]

/-- C6: `Register` is idempotent — for an unflagged task whose extraction
deterministically yields `regs`, both calls succeed and the table after two
consecutive calls maps exactly the same ids to the same entries as after
one call. -/
theorem c6_register_idempotent (c : Stub) (taskID : String)
    (regs : List AgentServiceRegistration)
    (hfail : taskID ∉ c.failRegisterForIDs) :
    (Register (.ok regs) taskID c).1 = .ok () ∧
    (Register (.ok regs) taskID ((Register (.ok regs) taskID c).2)).1 = .ok () ∧
    ∀ k, mapLookup ((Register (.ok regs) taskID ((Register (.ok regs) taskID c).2)).2).services k =
      mapLookup ((Register (.ok regs) taskID c).2).services k := by
  have h1 : Register (.ok regs) taskID c = (.ok (), { c with services := regs.foldl (fun m r => mapInsert m r.id r) c.services }) := by
    unfold Register
    rw [if_neg hfail]
  rw [h1]
  have h2 : Register (.ok regs) taskID { c with services := regs.foldl (fun m r => mapInsert m r.id r) c.services } = (.ok (), { c with services := regs.foldl (fun m r => mapInsert m r.id r) (regs.foldl (fun m r => mapInsert m r.id r) c.services) }) := by
    unfold Register
    rw [if_neg hfail]
  rw [h2]
  refine ⟨rfl, rfl, fun k => ?_⟩
  simp only [mapLookup_foldl_mapInsert]
  cases hf : regs.reverse.find? (fun r => r.id = k) <;> simp

/-- Witness for C6: registering task `t1` with two intent-derived entries
twice from the empty state. -/
theorem c6_witness :
    (Register (.ok regsT1) "t1" NewConsulStub).1 = .ok () ∧
    (Register (.ok regsT1) "t1" ((Register (.ok regsT1) "t1" NewConsulStub).2)).1 = .ok () ∧
    ∀ k, mapLookup ((Register (.ok regsT1) "t1" ((Register (.ok regsT1) "t1" NewConsulStub).2)).2).services k =
      mapLookup ((Register (.ok regsT1) "t1" NewConsulStub).2).services k :=
  c6_register_idempotent NewConsulStub "t1" regsT1 (by decide)

theorem step_failSets_subset {op : Op} {c c' : Stub} (h : step op c = some c') :
    c.failGetServicesForNames ⊆ c'.failGetServicesForNames ∧
    c.failRegisterForIDs ⊆ c'.failRegisterForIDs ∧
    c.failDeregisterByTaskForIDs ⊆ c'.failDeregisterByTaskForIDs ∧
    c.failDeregisterForIDs ⊆ c'.failDeregisterForIDs := by
  cases op with
  | getAllServices =>
    simp only [step, Option.some.injEq] at h
    subst h
    exact ⟨fun _ a => a, fun _ a => a, fun _ a => a, fun _ a => a⟩
  | getServices name =>
    simp only [step, Option.some.injEq] at h
    subst h
    exact ⟨fun _ a => a, fun _ a => a, fun _ a => a, fun _ a => a⟩
  | register e t =>
    simp only [step, Option.some.injEq] at h
    subst h
    unfold Register
    split
    · exact ⟨fun _ a => a, fun _ a => a, fun _ a => a, fun _ a => a⟩
    · split
      · exact ⟨fun _ a => a, fun _ a => a, fun _ a => a, fun _ a => a⟩
      · exact ⟨fun _ a => a, fun _ a => a, fun _ a => a, fun _ a => a⟩
  | registerWithoutMarathonTaskTag intents t host =>
    simp only [step, Option.some.injEq] at h
    subst h
    exact ⟨fun _ a => a, fun _ a => a, fun _ a => a, fun _ a => a⟩
  | registerOnlyFirstRegistrationIntent e =>
    simp only [step] at h
    unfold RegisterOnlyFirstRegistrationIntent at h
    cases e with
    | error err => simp at h
    | ok rs =>
      cases rs with
      | nil => simp at h
      | cons r rest =>
        simp only [Option.some.injEq] at h
        subst h
        exact ⟨fun _ a => a, fun _ a => a, fun _ a => a, fun _ a => a⟩
  | deregisterByTask t =>
    simp only [step, Option.some.injEq] at h
    subst h
    unfold DeregisterByTask
    split
    · exact ⟨fun _ a => a, fun _ a => a, fun _ a => a, fun _ a => a⟩
    · exact ⟨fun _ a => a, fun _ a => a, fun _ a => a, fun _ a => a⟩
  | deregister svc =>
    simp only [step, Option.some.injEq] at h
    subst h
    unfold Deregister
    split
    · exact ⟨fun _ a => a, fun _ a => a, fun _ a => a, fun _ a => a⟩
    · exact ⟨fun _ a => a, fun _ a => a, fun _ a => a, fun _ a => a⟩
  | failGetServicesForName name =>
    simp only [step, Option.some.injEq] at h
    subst h
    exact ⟨List.subset_cons_self name _, fun _ a => a, fun _ a => a, fun _ a => a⟩
  | failRegisterForID t =>
    simp only [step, Option.some.injEq] at h
    subst h
    exact ⟨fun _ a => a, List.subset_cons_self t _, fun _ a => a, fun _ a => a⟩
  | failDeregisterByTaskForID t =>
    simp only [step, Option.some.injEq] at h
    subst h
    exact ⟨fun _ a => a, fun _ a => a, List.subset_cons_self t _, fun _ a => a⟩
  | failDeregisterForID sid =>
    simp only [step, Option.some.injEq] at h
    subst h
    exact ⟨fun _ a => a, fun _ a => a, fun _ a => a, List.subset_cons_self sid _⟩

theorem run_failSets_subset {ops : List Op} {c c' : Stub} (h : run ops c = some c') :
    c.failGetServicesForNames ⊆ c'.failGetServicesForNames ∧
    c.failRegisterForIDs ⊆ c'.failRegisterForIDs ∧
    c.failDeregisterByTaskForIDs ⊆ c'.failDeregisterByTaskForIDs ∧
    c.failDeregisterForIDs ⊆ c'.failDeregisterForIDs := by
  induction ops generalizing c with
  | nil =>
    simp only [run, Option.some.injEq] at h
    subst h
    exact ⟨fun _ a => a, fun _ a => a, fun _ a => a, fun _ a => a⟩
  | cons op ops ih =>
    unfold run at h
    cases hs : step op c with
    | none => rw [hs] at h; cases h
    | some c2 =>
      rw [hs] at h
      obtain ⟨a1, a2, a3, a4⟩ := step_failSets_subset hs
      obtain ⟨b1, b2, b3, b4⟩ := ih h
      exact ⟨a1.trans b1, a2.trans b2, a3.trans b3, a4.trans b4⟩

/-- C7: injected failures are permanent — after `FailRegisterForID taskID`, in
every state reachable by any sequence of operations (no operation shrinks any
of the four failure sets) a `Register` call for that identifier fails with the
state unchanged, while immediately after the flag a `Register` call for a
different, unflagged identifier still succeeds. -/
theorem c7_failure_permanence (c : Stub) (taskID : String) (ops : List Op) (c' : Stub)
    (hrun : run ops (FailRegisterForID taskID c) = some c')
    (extract : Except String (List AgentServiceRegistration)) :
    Register extract taskID c' =
      (.error ("Consul stub programmed to fail when registering task of id " ++ taskID), c') ∧
    (c.failGetServicesForNames ⊆ c'.failGetServicesForNames ∧
      c.failRegisterForIDs ⊆ c'.failRegisterForIDs ∧
      c.failDeregisterByTaskForIDs ⊆ c'.failDeregisterByTaskForIDs ∧
      c.failDeregisterForIDs ⊆ c'.failDeregisterForIDs) ∧
    ∀ t regs, t ≠ taskID → t ∉ c.failRegisterForIDs →
      (Register (.ok regs) t (FailRegisterForID taskID c)).1 = .ok () := by
  obtain ⟨s1, s2, s3, s4⟩ := run_failSets_subset hrun
  have hmem : taskID ∈ c'.failRegisterForIDs :=
    s2 (List.mem_cons_self taskID c.failRegisterForIDs)
  refine ⟨?_, ⟨s1, (List.subset_cons_self taskID _).trans s2, s3, s4⟩, ?_⟩
  · unfold Register
    rw [if_pos hmem]
  · intro t regs ht hnot
    have hfree : t ∉ (FailRegisterForID taskID c).failRegisterForIDs := by
      intro hmem2
      rcases List.mem_cons.mp hmem2 with h1 | h2
      · exact ht h1
      · exact hnot h2
    unfold Register
    rw [if_neg hfree]

/-- Witness for C7: flag `t1`, run two further operations, then observe that
registering `t1` still fails with no state change while an unflagged `t2`
would succeed right after the flag. -/
theorem c7_witness :
    Register (.ok regsT1) "t1" stubAfterOps =
      (.error ("Consul stub programmed to fail when registering task of id " ++ "t1"), stubAfterOps) ∧
    (NewConsulStub.failGetServicesForNames ⊆ stubAfterOps.failGetServicesForNames ∧
      NewConsulStub.failRegisterForIDs ⊆ stubAfterOps.failRegisterForIDs ∧
      NewConsulStub.failDeregisterByTaskForIDs ⊆ stubAfterOps.failDeregisterByTaskForIDs ∧
      NewConsulStub.failDeregisterForIDs ⊆ stubAfterOps.failDeregisterForIDs) ∧
    ∀ t regs, t ≠ "t1" → t ∉ NewConsulStub.failRegisterForIDs →
      (Register (.ok regs) t (FailRegisterForID "t1" NewConsulStub)).1 = .ok () :=
  c7_failure_permanence NewConsulStub "t1" [.failDeregisterForID "s9", .getAllServices]
    stubAfterOps (by decide) (.ok regsT1)

end ConsulStub
